import Mathlib

/-!
Shallow embedding of the chart acquisition pipeline of
`internal/plugins/helm/v1/chartutil/chart.go`, the `build` subcommand's
argument handling from `commands/operator-sdk/cmd` and the `WatchOp`
option struct of the `sdk` package.

Effectful collaborators (temporary-directory allocation, `os.Stat`,
the helm loader/saver/downloader, the dependency manager, `os.RemoveAll`)
are modelled as oracle functions collected in an `Env` structure; each
embedded function returns its Go result together with a trace of the
external calls it performed, so that statements about which branch ran,
what was cleaned up and what was printed can be expressed.
-/

namespace OperatorSDK

/-- A Go `error` value is modelled by its message; `Option GoErr` stands for
a possibly-nil `error` (`none` = nil). -/
abbrev GoErr := String

/-- The fields of helm's `chart.Chart` that the specification talks about:
`Name()`, the template set, and the declared dependencies. -/
structure Chart where
  name : String
  templates : List String
  dependencies : List String
deriving DecidableEq

/-- `schema.GroupVersionKind`. -/
structure GVK where
  group : String
  version : String
  kind : String
deriving DecidableEq

/-- `CreateOptions` from chart.go. -/
structure CreateOptions where
  gvk : GVK
  chart : String
  repo : String
  version : String
  crdVersion : String
  domain : String
deriving DecidableEq

/-- The fields of kubebuilder's `golang.Options` that `NewResource` in
chart.go populates before calling `ro.NewResource(cfg)`. -/
structure GolangOptions where
  doAPI : Bool
  namespaced : Bool
  domain : String
  crdVersion : String
  group : String
  version : String
  kind : String
deriving DecidableEq

/-- The fields of kubebuilder's `resource.Resource` that chart.go reads or
writes. -/
structure Resource where
  group : String
  version : String
  kind : String
  domain : String
  path : String
deriving DecidableEq

/-- The project configuration (`config.Config`) together with the external
kubebuilder constructor `golang.Options.NewResource`, which is outside this
repository and therefore modelled as an uninterpreted function. -/
structure Cfg where
  domain : String
  newResource : GolangOptions → Resource

/-- Go's `strings.ToLower` on the ASCII chart names and kinds this code
handles, written structurally so that it evaluates by reduction. -/
def stringsToLower (s : String) : String := String.mk (s.data.map Char.toLower)

namespace strcase

/-- Model of the third-party dependency `github.com/iancoleman/strcase`
(`ToCamel`, not part of this repository): walks the characters, appending
letters and digits and capitalizing a lower-case letter that follows a
word separator (`_`, space, `-`) or starts the string; separators are
dropped. -/
def toCamelGo : Bool → List Char → List Char
  | _, [] => []
  | capNext, v :: rest =>
    if 'A' ≤ v ∧ v ≤ 'Z' then v :: toCamelGo false rest
    else if '0' ≤ v ∧ v ≤ '9' then v :: toCamelGo false rest
    else if 'a' ≤ v ∧ v ≤ 'z' then
      (if capNext then v.toUpper else v) :: toCamelGo false rest
    else if v = '_' ∨ v = ' ' ∨ v = '-' then toCamelGo true rest
    else toCamelGo false rest

/-- `strcase.ToCamel`: upper-camel-case a lowercase/hyphenated identifier. -/
def ToCamel (s : String) : String := String.mk (toCamelGo true s.data)

end strcase

namespace sdk

/-- `WatchOp` wraps all the options for `Watch()`; Go `int` is modelled
as `Int`. -/
structure WatchOp where
  NumWorkers : Int
deriving DecidableEq

/-- `(*WatchOp).setDefaults`: replaces `NumWorkers` by 1 only when it is
exactly 0. -/
def WatchOp.setDefaults (op : WatchOp) : WatchOp :=
  if op.NumWorkers = 0 then { op with NumWorkers := 1 } else op

/-- `NewWatchOp`: the zero-valued struct with defaults applied. -/
def NewWatchOp : WatchOp := (WatchOp.mk 0).setDefaults

/-- `WatchOption` configures `WatchOp`. -/
abbrev WatchOption := WatchOp → WatchOp

/-- `(*WatchOp).applyOpts`. -/
def WatchOp.applyOpts (op : WatchOp) (opts : List WatchOption) : WatchOp :=
  opts.foldl (fun o f => f o) op

/-- `WithWatchOptions` sets the number of workers for the `Watch()`
operation. -/
def WithWatchOptions (numWorkers : Int) : WatchOption :=
  fun op => { op with NumWorkers := numWorkers }

end sdk

namespace cmd

/-- Outcome of `buildFunc`: `cmdError.ExitWithError` terminates the process,
so it is modelled as a terminal outcome carrying the exit class and the
message. -/
inductive BuildOutcome
  | exitBadArgs (msg : String)
  | exitError (msg : String)
  | completed
deriving DecidableEq

/-- The external effects `buildFunc` can perform, in order. -/
inductive BuildEvent
  | execBuildScript
  | execDockerBuild (image : String)
  | renderOperatorYaml (image : String)
  | renderCustomOperatorYaml (image : String)
deriving DecidableEq

/-- Oracle for the collaborators of `buildFunc`: the two shell scripts
(`CombinedOutput`: combined output on success, or error), the template
file read, and the two manifest generators. -/
structure BuildEnv where
  runBuild : Except GoErr String
  runDockerBuild : String → Except GoErr String
  readTemplateFile : String → Except GoErr String
  renderOperator : String → Option GoErr
  renderCustomOperator : String → String → Option GoErr

/-- The argument-count guard of `buildFunc`:
`len(args) != 1 || len(args) != 2`. -/
def buildGuard (args : List String) : Bool :=
  args.length ≠ 1 || args.length ≠ 2

/-- `buildFunc` from the build subcommand. The guard exits with
`ExitBadArgs` before anything runs; otherwise (dead code, since the guard
is always true) the build script, the docker build and the manifest
rendering run in order. Go's `args[0]` and `args[2]` are modelled with a
default for the out-of-range case (in Go they would panic; both sites are
unreachable). -/
def buildFunc (env : BuildEnv) (args : List String) :
    BuildOutcome × List BuildEvent :=
  if buildGuard args then
    (.exitBadArgs "build command needs at least 1 argument.", [])
  else
    match env.runBuild with
    | .error o => (.exitError ("failed to build: (" ++ o ++ ")"), [.execBuildScript])
    | .ok _ =>
      let image := args.getD 0 ""
      match env.runDockerBuild image with
      | .error o =>
        (.exitError ("failed to output build image " ++ image ++ ": (" ++ o ++ ")"),
          [.execBuildScript, .execDockerBuild image])
      | .ok _ =>
        if args.length = 1 then
          match env.renderOperator image with
          | some e =>
            (.exitError ("failed to generate deploy/operator.yaml: (" ++ e ++ ")"),
              [.execBuildScript, .execDockerBuild image])
          | none =>
            (.completed, [.execBuildScript, .execDockerBuild image,
              .renderOperatorYaml image])
        else if args.length = 2 then
          match env.readTemplateFile (args.getD 2 "") with
          | .error e =>
            (.exitError ("failed to read template file: (" ++ e ++ ")"),
              [.execBuildScript, .execDockerBuild image])
          | .ok templ =>
            match env.renderCustomOperator image templ with
            | some e =>
              (.exitError ("failed to generate deploy/operator.yaml: (" ++ e ++ ")"),
                [.execBuildScript, .execDockerBuild image])
            | none =>
              (.completed, [.execBuildScript, .execDockerBuild image,
                .renderCustomOperatorYaml image])
        else
          (.completed, [.execBuildScript, .execDockerBuild image])

end cmd

/-- `HelmChartsDir` from chart.go. -/
def HelmChartsDir : String := "helm-charts"

/-- `DefaultGroup`: the CRD API group used for fetched charts when no group
is specified. -/
def DefaultGroup : String := "charts"

/-- `DefaultVersion`: the CRD API version used for fetched charts when no
version is specified. -/
def DefaultVersion : String := "v1alpha1"

/-- One event per external call performed by chart.go, recorded in order. -/
inductive Event
  | statCheck (path : String) (found : Bool)
  | load (path : String)
  | helmCreate (name dir : String)
  | saveDir (chartName dir : String)
  | findChart (repoURL chartRef version : String)
  | downloadTo (chartRef version dir : String)
  | managerBuild (path : String)
  | printOut (s : String)
  | newResource (ro : GolangOptions)
  | removeAll (path : String) (failed : Bool)
  | logError (msg : String)
deriving DecidableEq

/-- Oracle for the effectful collaborators of chart.go, one field per call
site. `load` models `loader.Load` before dependency resolution (the calls
in `scaffoldChart` and `createChartFromDisk`); `reload` models the same
library call at line 151, after `man.Build` may have mutated the chart
directory on disk, so the two are distinct oracle functions. `stat p` is
`os.Stat(p)` returning a nil error. -/
structure Env where
  tempDir : Except GoErr String
  stat : String → Bool
  load : String → Except GoErr Chart
  helmCreate : String → String → Except GoErr String
  saveDir : Chart → String → Option GoErr
  findChartInRepoURL : String → String → String → Except GoErr String
  downloadTo : String → String → String → Except GoErr String
  managerBuild : String → Option GoErr
  buildOut : String → String
  reload : String → Except GoErr Chart
  removeAll : String → Option GoErr

/-- `filepath.Join(a, b)` for the non-empty, already-clean path segments
chart.go joins. -/
def filepathJoin (a b : String) : String := a ++ "/" ++ b

/-- The fields `(opts CreateOptions).NewResource` copies into
`golang.Options` before calling the kubebuilder constructor. -/
def CreateOptions.golangOptions (opts : CreateOptions) : GolangOptions :=
  { doAPI := true
    namespaced := true
    domain := opts.domain
    crdVersion := opts.crdVersion
    group := opts.gvk.group
    version := opts.gvk.version
    kind := opts.gvk.kind }

/-- `(opts CreateOptions).NewResource(cfg)`: builds the kubebuilder
resource, then overwrites `Domain` with `cfg.GetDomain()` and clears
`Path` (the project is not a Go project). -/
def CreateOptions.NewResource (opts : CreateOptions) (cfg : Cfg) : Resource :=
  let r := cfg.newResource opts.golangOptions
  { r with domain := cfg.domain, path := "" }

/-- `createChartFromDisk(destDir, source)`: `loader.Load(source)`, then
`chartutil.SaveDir(chart, destDir)`. -/
def createChartFromDisk (env : Env) (destDir source : String) :
    Except GoErr Chart × List Event :=
  match env.load source with
  | .error e => (.error e, [.load source])
  | .ok ch =>
    match env.saveDir ch destDir with
    | some e => (.error e, [.load source, .saveDir ch.name destDir])
    | none => (.ok ch, [.load source, .saveDir ch.name destDir])

/-- `createChartFromRemote(destDir, opts)`: when `opts.Repo` is non-empty,
first resolve the chart name against the repository index
(`repo.FindChartInRepoURL`) and replace `opts.Chart` with the resulting
URL; then `c.DownloadTo(opts.Chart, opts.Version, destDir)` and load the
downloaded archive from disk. -/
def createChartFromRemote (env : Env) (destDir : String) (opts : CreateOptions) :
    Except GoErr Chart × List Event :=
  if opts.repo ≠ "" then
    match env.findChartInRepoURL opts.repo opts.chart opts.version with
    | .error e => (.error e, [.findChart opts.repo opts.chart opts.version])
    | .ok chartURL =>
      match env.downloadTo chartURL opts.version destDir with
      | .error e =>
        (.error e, [.findChart opts.repo opts.chart opts.version,
          .downloadTo chartURL opts.version destDir])
      | .ok chartArchive =>
        let dl := createChartFromDisk env destDir chartArchive
        (dl.1, .findChart opts.repo opts.chart opts.version ::
          .downloadTo chartURL opts.version destDir :: dl.2)
  else
    match env.downloadTo opts.chart opts.version destDir with
    | .error e => (.error e, [.downloadTo opts.chart opts.version destDir])
    | .ok chartArchive =>
      let dl := createChartFromDisk env destDir chartArchive
      (dl.1, .downloadTo opts.chart opts.version destDir :: dl.2)

/-- `fetchChart(cfg, destDir, opts)`: `os.Stat(opts.Chart)` decides between
the load-from-disk branch and the remote branch; on success the unset GVK
fields are defaulted (group to `DefaultGroup`, version to
`DefaultVersion`, kind to `strcase.ToCamel` of the chart's name; Go's
`len(x) == 0` test on a string is written `x = ""`). The branch on the
`os.Stat` outcome is split into `fetchAcquire`. -/
def fetchAcquire (env : Env) (destDir : String) (opts : CreateOptions) :
    Except GoErr Chart × List Event :=
  if env.stat opts.chart then createChartFromDisk env destDir opts.chart
  else createChartFromRemote env destDir opts

/-- The rest of `fetchChart`: record the `os.Stat` check, default the unset
GVK fields on success and build the resource from the updated options. -/
def fetchChart (cfg : Cfg) (env : Env) (destDir : String) (opts : CreateOptions) :
    Except GoErr (Resource × Chart) × List Event :=
  let acq := fetchAcquire env destDir opts
  let evs := Event.statCheck opts.chart (env.stat opts.chart) :: acq.2
  match acq.1 with
  | .error e => (.error e, evs)
  | .ok ch =>
    let chartName := ch.name
    let g := if opts.gvk.group = "" then DefaultGroup else opts.gvk.group
    let v := if opts.gvk.version = "" then DefaultVersion else opts.gvk.version
    let k := if opts.gvk.kind = "" then strcase.ToCamel chartName else opts.gvk.kind
    let opts2 : CreateOptions := { opts with gvk := ⟨g, v, k⟩ }
    (.ok (opts2.NewResource cfg, ch), evs ++ [.newResource opts2.golangOptions])

/-- `scaffoldChart(cfg, destDir, opts)`: `chartutil.Create` with the
lower-cased kind, then `loader.Load` of the created chart path. -/
def scaffoldChart (cfg : Cfg) (env : Env) (destDir : String) (opts : CreateOptions) :
    Except GoErr (Resource × Chart) × List Event :=
  match env.helmCreate (stringsToLower opts.gvk.kind) destDir with
  | .error e => (.error e, [.helmCreate (stringsToLower opts.gvk.kind) destDir])
  | .ok chartPath =>
    match env.load chartPath with
    | .error e => (.error e, [.helmCreate (stringsToLower opts.gvk.kind) destDir, .load chartPath])
    | .ok ch =>
      (.ok (opts.NewResource cfg, ch),
        [.helmCreate (stringsToLower opts.gvk.kind) destDir, .load chartPath,
          .newResource opts.golangOptions])

/-- `fetchChartDependencies(chartPath)`: `man.Build()` with `man.Out` set
to a fresh buffer (`env.buildOut chartPath` is what the manager wrote to
that buffer); the buffer is printed only when `Build` fails. -/
def fetchChartDependencies (env : Env) (chartPath : String) :
    Option GoErr × List Event :=
  match env.managerBuild chartPath with
  | some e => (some e, [.managerBuild chartPath, .printOut (env.buildOut chartPath)])
  | none => (none, [.managerBuild chartPath])

/-- The Go triple `(r *resource.Resource, c *chart.Chart, err error)`
returned by `CreateChart`, with nilable pointers as `Option`. -/
structure CreateChartReturn where
  res : Option Resource
  chart : Option Chart
  err : Option GoErr
deriving DecidableEq

/-- The body of `CreateChart` between the deferred cleanup registration and
the return: the scaffold/fetch branch on `len(opts.Chart) == 0` with its
error wrapping, then `fetchChartDependencies` on
`filepath.Join(tmpDir, c.Name())`, then the reload of the chart. -/
def createChartPipeline (cfg : Cfg) (env : Env) (tmpDir : String)
    (opts : CreateOptions) : CreateChartReturn × List Event :=
  let acq : Except GoErr (Resource × Chart) × List Event :=
    if opts.chart = "" then
      let s := scaffoldChart cfg env tmpDir opts
      match s.1 with
      | .error e => (.error ("failed to scaffold default chart: " ++ e), s.2)
      | .ok rc => (.ok rc, s.2)
    else
      let f := fetchChart cfg env tmpDir opts
      match f.1 with
      | .error e => (.error ("failed to fetch chart: " ++ e), f.2)
      | .ok rc => (.ok rc, f.2)
  match acq.1 with
  | .error e => (⟨none, none, some e⟩, acq.2)
  | .ok (r, c) =>
    let absChartPath := filepathJoin tmpDir c.name
    let dep := fetchChartDependencies env absChartPath
    match dep.1 with
    | some e =>
      (⟨none, none, some ("failed to fetch chart dependencies: " ++ e)⟩, acq.2 ++ dep.2)
    | none =>
      match env.reload absChartPath with
      | .error e =>
        (⟨none, none, some ("failed to load chart: " ++ e)⟩,
          acq.2 ++ dep.2 ++ [.load absChartPath])
      | .ok c2 => (⟨some r, some c2, none⟩, acq.2 ++ dep.2 ++ [.load absChartPath])

/-- `CreateChart(cfg, opts)`: allocate the temporary workspace (failure is
returned as-is, before any deferred cleanup is registered), run the
pipeline, then perform the deferred `os.RemoveAll(tmpDir)`, whose failure
is only logged and never replaces the pipeline's result. -/
def CreateChart (cfg : Cfg) (env : Env) (opts : CreateOptions) :
    CreateChartReturn × List Event :=
  match env.tempDir with
  | .error e => (⟨none, none, some e⟩, [])
  | .ok tmpDir =>
    let p := createChartPipeline cfg env tmpDir opts
    match env.removeAll tmpDir with
    | some e =>
      (p.1, p.2 ++ [.removeAll tmpDir true,
        .logError ("Failed to remove temporary chart directory " ++ tmpDir ++ ": " ++ e)])
    | none => (p.1, p.2 ++ [.removeAll tmpDir false])

/-- Events that only the fetch path (`fetchChart` and the functions it
calls) can emit. -/
def isFetchEvent : Event → Bool
  | .statCheck _ _ => true
  | .findChart _ _ _ => true
  | .downloadTo _ _ _ => true
  | .saveDir _ _ => true
  | _ => false

/-- Events that only the remote branch (`createChartFromRemote`) can
emit. -/
def isRemoteEvent : Event → Bool
  | .findChart _ _ _ => true
  | .downloadTo _ _ _ => true
  | _ => false

/-- The GVK defaulting the spec describes for acquired charts: explicit
fields win; otherwise group and version fall back to the fixed defaults
and kind to the upper-camel-case transform of the chart's name. -/
def specDefaultedGVK (gvk : GVK) (chartName : String) : GVK :=
  { group := if gvk.group = "" then DefaultGroup else gvk.group
    version := if gvk.version = "" then DefaultVersion else gvk.version
    kind := if gvk.kind = "" then strcase.ToCamel chartName else gvk.kind }

/-- A concrete local directory chart used by the concrete instances. -/
def chartA : Chart :=
  { name := "my-app"
    templates := ["templates/deployment.yaml", "templates/service.yaml"]
    dependencies := [] }

/-- A concrete default-scaffolded chart used by the concrete instances. -/
def chartApp : Chart :=
  { name := "app"
    templates := ["templates/deployment.yaml"]
    dependencies := [] }

/-- A concrete project configuration; the kubebuilder constructor copies
the GVK and domain and fills in a Go-package path. -/
def cfgA : Cfg :=
  { domain := "example.com"
    newResource := fun ro =>
      { group := ro.group, version := ro.version, kind := ro.kind,
        domain := ro.domain, path := "api/v1" } }

/-- The workspace directory allocated by the concrete environment. -/
def tmpA : String := "/tmp/osdk-helm-chart"

/-- A concrete environment: `./my-app` exists on disk and loads as
`chartA`; scaffolding creates `destDir/name` which loads as `chartApp`;
downloads fail; dependency resolution succeeds; removal succeeds. -/
def envA : Env :=
  { tempDir := .ok tmpA
    stat := fun p => p == "./my-app"
    load := fun p =>
      if p == "./my-app" then .ok chartA
      else if p == "/tmp/osdk-helm-chart/app" then .ok chartApp
      else .error "Chart.yaml file is missing"
    helmCreate := fun name dir => .ok (filepathJoin dir name)
    saveDir := fun _ _ => none
    findChartInRepoURL := fun _ _ _ => .ok "https://example.com/charts/my-app-1.0.0.tgz"
    downloadTo := fun _ _ _ => .error "no cached repo found"
    managerBuild := fun _ => none
    buildOut := fun _ => "Saving 0 charts"
    reload := fun p =>
      if p == "/tmp/osdk-helm-chart/my-app" then .ok chartA
      else if p == "/tmp/osdk-helm-chart/app" then .ok chartApp
      else .error "Chart.yaml file is missing"
    removeAll := fun _ => none }

/-- Concrete options naming the existing local directory `./my-app`, with
no explicit GVK. -/
def optsLocalA : CreateOptions :=
  { gvk := ⟨"", "", ""⟩
    chart := "./my-app"
    repo := ""
    version := ""
    crdVersion := "v1"
    domain := "my.dom" }

/-- Concrete options with an empty chart reference and explicit GVK. -/
def optsEmptyA : CreateOptions :=
  { gvk := ⟨"apps", "v1beta1", "App"⟩
    chart := ""
    repo := ""
    version := ""
    crdVersion := "v1"
    domain := "my.dom" }

/-- C7: dependency resolution writes its diagnostic output to a buffer;
the captured output is printed exactly when `man.Build()` fails, and on
success no output is emitted at all. -/
theorem c7_dependency_output (env : Env) (p : String) :
    ((fetchChartDependencies env p).1.isSome →
      Event.printOut (env.buildOut p) ∈ (fetchChartDependencies env p).2) ∧
    ((fetchChartDependencies env p).1 = none →
      ∀ s, Event.printOut s ∉ (fetchChartDependencies env p).2) := by
  cases h : env.managerBuild p <;> simp [fetchChartDependencies, h]

/-- C7 witness: with a failing manager the captured buffer is printed;
with the succeeding concrete environment the captured buffer is not
printed. -/
theorem c7_dependency_output_witness :
    Event.printOut "Saving 0 charts" ∈
      (fetchChartDependencies { envA with managerBuild := fun _ => some "missing repo" }
        "/tmp/osdk-helm-chart/my-app").2 ∧
    Event.printOut "Saving 0 charts" ∉
      (fetchChartDependencies envA "/tmp/osdk-helm-chart/my-app").2 := by
  constructor
  · exact (c7_dependency_output
      { envA with managerBuild := fun _ => some "missing repo" }
      "/tmp/osdk-helm-chart/my-app").1 rfl
  · exact (c7_dependency_output envA "/tmp/osdk-helm-chart/my-app").2 rfl "Saving 0 charts"

/-- Every event in a `createChartFromDisk` trace is the disk load or the
save into the workspace. -/
theorem createChartFromDisk_trace (env : Env) (destDir source : String) :
    ∀ e ∈ (createChartFromDisk env destDir source).2,
      e = Event.load source ∨ ∃ n, e = Event.saveDir n destDir := by
  intro e he
  cases hl : env.load source with
  | error err => simp [createChartFromDisk, hl] at he; simp [he]
  | ok ch =>
    cases hs : env.saveDir ch destDir <;>
      simp [createChartFromDisk, hl, hs] at he <;>
      rcases he with he | he <;> simp [he]

/-- The disk load of the source is the first event of
`createChartFromDisk`. -/
theorem createChartFromDisk_loads (env : Env) (destDir source : String) :
    Event.load source ∈ (createChartFromDisk env destDir source).2 := by
  cases hl : env.load source with
  | error err => simp [createChartFromDisk, hl]
  | ok ch => cases hs : env.saveDir ch destDir <;> simp [createChartFromDisk, hl, hs]

/-- The remote branch always emits a remote event (the repository-index
lookup when a custom repository is set, the download otherwise). -/
theorem createChartFromRemote_remote (env : Env) (destDir : String)
    (opts : CreateOptions) :
    ∃ e ∈ (createChartFromRemote env destDir opts).2, isRemoteEvent e = true := by
  by_cases hr : opts.repo = ""
  · cases hd : env.downloadTo opts.chart opts.version destDir <;>
      exact ⟨.downloadTo opts.chart opts.version destDir,
        by simp [createChartFromRemote, hr, hd, isRemoteEvent]⟩
  · cases hf : env.findChartInRepoURL opts.repo opts.chart opts.version with
    | error e =>
      exact ⟨.findChart opts.repo opts.chart opts.version,
        by simp [createChartFromRemote, hr, hf, isRemoteEvent]⟩
    | ok chartURL =>
      cases hd : env.downloadTo chartURL opts.version destDir <;>
        exact ⟨.findChart opts.repo opts.chart opts.version,
          by simp [createChartFromRemote, hr, hf, hd, isRemoteEvent]⟩

/-- Every event of the acquisition branch appears in the `fetchChart`
trace. -/
theorem fetchChart_trace_mono (cfg : Cfg) (env : Env) (destDir : String)
    (opts : CreateOptions) :
    ∀ e ∈ (fetchAcquire env destDir opts).2, e ∈ (fetchChart cfg env destDir opts).2 := by
  intro e he
  rcases hA : fetchAcquire env destDir opts with ⟨acq1, acq2⟩
  rw [hA] at he
  simp only at he
  cases acq1 <;> simp [fetchChart, hA] <;> simp [he]

/-- Every event of a `fetchChart` trace is the stat check, an event of the
acquisition branch, or the resource construction. -/
theorem fetchChart_trace_shape (cfg : Cfg) (env : Env) (destDir : String)
    (opts : CreateOptions) :
    ∀ e ∈ (fetchChart cfg env destDir opts).2,
      e = Event.statCheck opts.chart (env.stat opts.chart) ∨
        e ∈ (fetchAcquire env destDir opts).2 ∨ ∃ ro, e = Event.newResource ro := by
  intro e he
  rcases hA : fetchAcquire env destDir opts with ⟨acq1, acq2⟩
  simp only [fetchChart, hA] at he
  cases acq1 with
  | error err =>
    simp at he
    rcases he with he | he
    · exact Or.inl he
    · exact Or.inr (Or.inl (by simpa using he))
  | ok ch =>
    simp at he
    rcases he with he | he | he
    · exact Or.inl he
    · exact Or.inr (Or.inl (by simpa using he))
    · exact Or.inr (Or.inr ⟨_, he⟩)

/-- C2: for a non-empty chart reference, when the filesystem existence
check succeeds, acquisition takes the load-from-disk branch (the source is
loaded from disk and no repository lookup or download happens, whatever
`opts.repo` is); when the check fails, the remote branch is taken (a
repository lookup or download event occurs). -/
theorem c2_local_path_precedence (cfg : Cfg) (env : Env) (destDir : String)
    (opts : CreateOptions) (_hne : opts.chart ≠ "") :
    (env.stat opts.chart = true →
      Event.load opts.chart ∈ (fetchChart cfg env destDir opts).2 ∧
        ∀ e ∈ (fetchChart cfg env destDir opts).2, isRemoteEvent e = false) ∧
    (env.stat opts.chart = false →
      ∃ e ∈ (fetchChart cfg env destDir opts).2, isRemoteEvent e = true) := by
  constructor
  · intro hstat
    have hacq : fetchAcquire env destDir opts =
        createChartFromDisk env destDir opts.chart := by
      simp [fetchAcquire, hstat]
    constructor
    · exact fetchChart_trace_mono cfg env destDir opts _
        (by rw [hacq]; exact createChartFromDisk_loads env destDir opts.chart)
    · intro e he
      rcases fetchChart_trace_shape cfg env destDir opts e he with h | h | ⟨ro, h⟩
      · subst h; simp [isRemoteEvent]
      · rw [hacq] at h
        rcases createChartFromDisk_trace env destDir opts.chart e h with h1 | ⟨n, h1⟩ <;>
          subst h1 <;> simp [isRemoteEvent]
      · subst h; simp [isRemoteEvent]
  · intro hstat
    have hacq : fetchAcquire env destDir opts =
        createChartFromRemote env destDir opts := by
      simp [fetchAcquire, hstat]
    obtain ⟨e, he, hre⟩ := createChartFromRemote_remote env destDir opts
    exact ⟨e, fetchChart_trace_mono cfg env destDir opts e (by rw [hacq]; exact he), hre⟩

/-- C2 witness: with the concrete environment, `./my-app` exists and is
loaded from disk, with the stat-check event of its trace not a remote
event, while the non-existing reference `stable/nginx` takes the remote
branch. -/
theorem c2_local_path_precedence_witness :
    Event.load "./my-app" ∈ (fetchChart cfgA envA tmpA optsLocalA).2 ∧
    isRemoteEvent (Event.statCheck "./my-app" true) = false ∧
    ∃ e ∈ (fetchChart cfgA envA tmpA { optsLocalA with chart := "stable/nginx" }).2,
      isRemoteEvent e = true := by
  refine ⟨?_, ?_, ?_⟩
  · exact ((c2_local_path_precedence cfgA envA tmpA optsLocalA (by decide)).1 (by decide)).1
  · exact ((c2_local_path_precedence cfgA envA tmpA optsLocalA (by decide)).1 (by decide)).2
      (Event.statCheck "./my-app" true) (by decide)
  · exact (c2_local_path_precedence cfgA envA tmpA
      { optsLocalA with chart := "stable/nginx" } (by decide)).2 (by decide)

/-- When workspace allocation succeeds, the returned triple of
`CreateChart` is exactly what the pipeline produced: the deferred cleanup
contributes only trace events. -/
theorem CreateChart_fst (cfg : Cfg) (env : Env) (opts : CreateOptions) (tmp : String)
    (h : env.tempDir = .ok tmp) :
    (CreateChart cfg env opts).1 = (createChartPipeline cfg env tmp opts).1 := by
  cases hr : env.removeAll tmp <;> simp [CreateChart, h, hr]

/-- The pipeline body never consults the `os.RemoveAll` oracle: it is only
used by the deferred cleanup. -/
theorem pipeline_ignores_removeAll (cfg : Cfg) (env : Env) (tmpDir : String)
    (opts : CreateOptions) (g : String → Option GoErr) :
    createChartPipeline cfg { env with removeAll := g } tmpDir opts =
      createChartPipeline cfg env tmpDir opts := by
  cases env
  rfl

/-- C1: whenever the temporary workspace is allocated, `os.RemoveAll` runs
on it on every return path; the returned triple is unchanged whatever the
removal outcome is (removal failure never replaces or masks the result);
and a failed removal is logged. -/
theorem c1_workspace_cleanup (cfg : Cfg) (env : Env) (opts : CreateOptions)
    (tmp : String) (h : env.tempDir = .ok tmp) :
    Event.removeAll tmp (env.removeAll tmp).isSome ∈ (CreateChart cfg env opts).2 ∧
      (∀ g : String → Option GoErr,
        (CreateChart cfg { env with removeAll := g } opts).1 =
          (CreateChart cfg env opts).1) ∧
      (∀ e, env.removeAll tmp = some e →
        Event.logError
            ("Failed to remove temporary chart directory " ++ tmp ++ ": " ++ e) ∈
          (CreateChart cfg env opts).2) := by
  refine ⟨?_, ?_, ?_⟩
  · cases hr : env.removeAll tmp <;> simp [CreateChart, h, hr]
  · intro g
    rw [CreateChart_fst cfg env opts tmp h,
      CreateChart_fst cfg { env with removeAll := g } opts tmp h,
      pipeline_ignores_removeAll cfg env tmp opts g]
  · intro e he
    simp [CreateChart, h, he]

/-- The concrete environment with a failing directory removal. -/
def envARm : Env := { envA with removeAll := fun _ => some "permission denied" }

/-- C1 witness: with a failing removal, the removal event is in the trace,
the returned triple equals the one with a succeeding removal, and the
failure is logged. -/
theorem c1_workspace_cleanup_witness :
    Event.removeAll tmpA true ∈ (CreateChart cfgA envARm optsLocalA).2 ∧
      (CreateChart cfgA { envARm with removeAll := fun _ => none } optsLocalA).1 =
        (CreateChart cfgA envARm optsLocalA).1 ∧
      Event.logError
          ("Failed to remove temporary chart directory " ++ tmpA ++ ": permission denied") ∈
        (CreateChart cfgA envARm optsLocalA).2 := by
  obtain ⟨h1, h2, h3⟩ := c1_workspace_cleanup cfgA envARm optsLocalA tmpA rfl
  exact ⟨h1, h2 _, h3 "permission denied" rfl⟩

/-- C4: whenever `fetchChart` succeeds, the resource it builds was
constructed from the options with exactly the spec's GVK defaulting
applied against the acquired chart's name: unset group/version fall back
to the constants, unset kind to the upper-camel-cased chart name, and
explicitly supplied fields are kept. -/
theorem c4_gvk_defaulting (cfg : Cfg) (env : Env) (destDir : String)
    (opts : CreateOptions) (r : Resource) (c : Chart)
    (h : (fetchChart cfg env destDir opts).1 = .ok (r, c)) :
    Event.newResource
        ({ opts with gvk := specDefaultedGVK opts.gvk c.name } : CreateOptions).golangOptions ∈
      (fetchChart cfg env destDir opts).2 ∧
      r = ({ opts with gvk := specDefaultedGVK opts.gvk c.name } : CreateOptions).NewResource cfg := by
  rcases hA : fetchAcquire env destDir opts with ⟨acq1, acq2⟩
  cases acq1 with
  | error err => simp [fetchChart, hA] at h
  | ok ch =>
    simp only [fetchChart, hA] at h ⊢
    simp at h
    obtain ⟨hr, hc⟩ := h
    subst hc
    constructor
    · simp [specDefaultedGVK]
    · rw [← hr]
      rfl

/-- The resource the concrete acquisition derives: defaulted GVK with the
camel-cased chart name, the configured domain, and no path. -/
def resA : Resource :=
  { group := "charts", version := "v1alpha1", kind := "MyApp",
    domain := "example.com", path := "" }

/-- C4 witness: for the chart named `my-app` acquired with no explicit
GVK, the defaulted identity is Group=`charts`, Version=`v1alpha1`,
Kind=`MyApp`, and the recorded resource construction uses it. -/
theorem c4_gvk_defaulting_witness :
    specDefaultedGVK ⟨"", "", ""⟩ "my-app" = ⟨"charts", "v1alpha1", "MyApp"⟩ ∧
    Event.newResource
        ({ optsLocalA with gvk := specDefaultedGVK optsLocalA.gvk "my-app" } : CreateOptions).golangOptions ∈
      (fetchChart cfgA envA tmpA optsLocalA).2 := by
  constructor
  · decide
  · exact (c4_gvk_defaulting cfgA envA tmpA optsLocalA resA chartA (by rfl)).1

/-- A resource produced by a successful `scaffoldChart` is exactly
`opts.NewResource cfg`. -/
theorem scaffoldChart_res (cfg : Cfg) (env : Env) (destDir : String)
    (opts : CreateOptions) (r : Resource) (c : Chart)
    (h : (scaffoldChart cfg env destDir opts).1 = .ok (r, c)) :
    r = opts.NewResource cfg := by
  cases hc : env.helmCreate (stringsToLower opts.gvk.kind) destDir with
  | error e => simp [scaffoldChart, hc] at h
  | ok p =>
    cases hl : env.load p with
    | error e => simp [scaffoldChart, hc, hl] at h
    | ok ch =>
      simp [scaffoldChart, hc, hl] at h
      exact h.1.symm

/-- A resource produced by a successful `fetchChart` is `NewResource` of
some options value. -/
theorem fetchChart_res (cfg : Cfg) (env : Env) (destDir : String)
    (opts : CreateOptions) (r : Resource) (c : Chart)
    (h : (fetchChart cfg env destDir opts).1 = .ok (r, c)) :
    ∃ o : CreateOptions, r = o.NewResource cfg := by
  exact ⟨_, (c4_gvk_defaulting cfg env destDir opts r c h).2⟩

/-- Case analysis on the pipeline: it yields a full result or a
stage-labelled error with both pointers nil. -/
theorem pipeline_cases (cfg : Cfg) (env : Env) (tmp : String) (opts : CreateOptions) :
    (∃ r c, (createChartPipeline cfg env tmp opts).1 = ⟨some r, some c, none⟩) ∨
      (∃ msg, (createChartPipeline cfg env tmp opts).1 = ⟨none, none, some msg⟩ ∧
        ((∃ e, msg = "failed to scaffold default chart: " ++ e) ∨
         (∃ e, msg = "failed to fetch chart: " ++ e) ∨
         (∃ e, msg = "failed to fetch chart dependencies: " ++ e) ∨
         (∃ e, msg = "failed to load chart: " ++ e))) := by
  by_cases hc : opts.chart = ""
  · rcases hS : scaffoldChart cfg env tmp opts with ⟨s1, s2⟩
    cases s1 with
    | error e =>
      exact Or.inr ⟨_, by simp [createChartPipeline, hc, hS], Or.inl ⟨e, rfl⟩⟩
    | ok rc =>
      obtain ⟨r, c⟩ := rc
      cases hD : env.managerBuild (filepathJoin tmp c.name) with
      | some e =>
        exact Or.inr ⟨_, by simp [createChartPipeline, hc, hS, fetchChartDependencies, hD],
          Or.inr (Or.inr (Or.inl ⟨e, rfl⟩))⟩
      | none =>
        cases hR : env.reload (filepathJoin tmp c.name) with
        | error e =>
          exact Or.inr ⟨_,
            by simp [createChartPipeline, hc, hS, fetchChartDependencies, hD, hR],
            Or.inr (Or.inr (Or.inr ⟨e, rfl⟩))⟩
        | ok c2 =>
          exact Or.inl ⟨r, c2,
            by simp [createChartPipeline, hc, hS, fetchChartDependencies, hD, hR]⟩
  · rcases hF : fetchChart cfg env tmp opts with ⟨f1, f2⟩
    cases f1 with
    | error e =>
      exact Or.inr ⟨_, by simp [createChartPipeline, hc, hF], Or.inr (Or.inl ⟨e, rfl⟩)⟩
    | ok rc =>
      obtain ⟨r, c⟩ := rc
      cases hD : env.managerBuild (filepathJoin tmp c.name) with
      | some e =>
        exact Or.inr ⟨_, by simp [createChartPipeline, hc, hF, fetchChartDependencies, hD],
          Or.inr (Or.inr (Or.inl ⟨e, rfl⟩))⟩
      | none =>
        cases hR : env.reload (filepathJoin tmp c.name) with
        | error e =>
          exact Or.inr ⟨_,
            by simp [createChartPipeline, hc, hF, fetchChartDependencies, hD, hR],
            Or.inr (Or.inr (Or.inr ⟨e, rfl⟩))⟩
        | ok c2 =>
          exact Or.inl ⟨r, c2,
            by simp [createChartPipeline, hc, hF, fetchChartDependencies, hD, hR]⟩

/-- C5: once the workspace is allocated, `CreateChart` either fully
succeeds — non-nil resource, non-nil reloaded chart, nil error — or fully
fails: both pointers are nil and the error wraps the underlying cause with
a context naming the failing stage (scaffold, fetch, dependency
resolution, or reload). No partial chart accompanies an error. -/
theorem c5_all_or_nothing (cfg : Cfg) (env : Env) (opts : CreateOptions)
    (tmp : String) (h : env.tempDir = .ok tmp) :
    (∃ r c, (CreateChart cfg env opts).1 = ⟨some r, some c, none⟩) ∨
      (∃ msg, (CreateChart cfg env opts).1 = ⟨none, none, some msg⟩ ∧
        ((∃ e, msg = "failed to scaffold default chart: " ++ e) ∨
         (∃ e, msg = "failed to fetch chart: " ++ e) ∨
         (∃ e, msg = "failed to fetch chart dependencies: " ++ e) ∨
         (∃ e, msg = "failed to load chart: " ++ e))) := by
  rw [CreateChart_fst cfg env opts tmp h]
  exact pipeline_cases cfg env tmp opts

/-- C5 witness: the concrete local acquisition lands in one of the two
allowed shapes. -/
theorem c5_all_or_nothing_witness :
    (∃ r c, (CreateChart cfgA envA optsLocalA).1 = ⟨some r, some c, none⟩) ∨
      (∃ msg, (CreateChart cfgA envA optsLocalA).1 = ⟨none, none, some msg⟩ ∧
        ((∃ e, msg = "failed to scaffold default chart: " ++ e) ∨
         (∃ e, msg = "failed to fetch chart: " ++ e) ∨
         (∃ e, msg = "failed to fetch chart dependencies: " ++ e) ∨
         (∃ e, msg = "failed to load chart: " ++ e))) :=
  c5_all_or_nothing cfgA envA optsLocalA tmpA rfl

/-- Any resource in the pipeline's result was built by
`CreateOptions.NewResource`. -/
theorem pipeline_res_shape (cfg : Cfg) (env : Env) (tmp : String)
    (opts : CreateOptions) (r : Resource)
    (h : (createChartPipeline cfg env tmp opts).1.res = some r) :
    ∃ o : CreateOptions, r = o.NewResource cfg := by
  by_cases hc : opts.chart = ""
  · rcases hS : scaffoldChart cfg env tmp opts with ⟨s1, s2⟩
    cases s1 with
    | error e => simp [createChartPipeline, hc, hS] at h
    | ok rc =>
      obtain ⟨r0, c⟩ := rc
      cases hD : env.managerBuild (filepathJoin tmp c.name) with
      | some e => simp [createChartPipeline, hc, hS, fetchChartDependencies, hD] at h
      | none =>
        cases hR : env.reload (filepathJoin tmp c.name) with
        | error e =>
          simp [createChartPipeline, hc, hS, fetchChartDependencies, hD, hR] at h
        | ok c2 =>
          simp [createChartPipeline, hc, hS, fetchChartDependencies, hD, hR] at h
          exact ⟨opts, h ▸ scaffoldChart_res cfg env tmp opts r0 c (by rw [hS])⟩
  · rcases hF : fetchChart cfg env tmp opts with ⟨f1, f2⟩
    cases f1 with
    | error e => simp [createChartPipeline, hc, hF] at h
    | ok rc =>
      obtain ⟨r0, c⟩ := rc
      cases hD : env.managerBuild (filepathJoin tmp c.name) with
      | some e => simp [createChartPipeline, hc, hF, fetchChartDependencies, hD] at h
      | none =>
        cases hR : env.reload (filepathJoin tmp c.name) with
        | error e =>
          simp [createChartPipeline, hc, hF, fetchChartDependencies, hD, hR] at h
        | ok c2 =>
          simp [createChartPipeline, hc, hF, fetchChartDependencies, hD, hR] at h
          obtain ⟨o, ho⟩ := fetchChart_res cfg env tmp opts r0 c (by rw [hF])
          exact ⟨o, h ▸ ho⟩

/-- C9: every resource identity `CreateChart` returns has an empty `Path`
and its `Domain` equals the configured project domain, whatever domain the
options carried. -/
theorem c9_resource_pathless (cfg : Cfg) (env : Env) (opts : CreateOptions)
    (r : Resource) (h : (CreateChart cfg env opts).1.res = some r) :
    r.path = "" ∧ r.domain = cfg.domain := by
  cases ht : env.tempDir with
  | error e => simp [CreateChart, ht] at h
  | ok tmp =>
    rw [CreateChart_fst cfg env opts tmp ht] at h
    obtain ⟨o, rfl⟩ := pipeline_res_shape cfg env tmp opts r h
    exact ⟨rfl, rfl⟩

/-- C9 witness: the concrete acquisition returns the defaulted resource,
whose path is empty and whose domain is the configured `example.com`, not
the `my.dom` supplied in the options. -/
theorem c9_resource_pathless_witness :
    resA.path = "" ∧ resA.domain = cfgA.domain :=
  c9_resource_pathless cfgA envA optsLocalA resA (by rfl)

/-- C3: for an empty chart reference, `CreateChart` behaves identically
whatever `Repo` and `Version` options are supplied (they are never
consulted), the trace contains no fetch-path event, and — under the helm
library's contract that `chartutil.Create` creates a chart named by its
argument and reloading preserves the name — the returned chart is named by
the lower-cased kind. -/
theorem c3_empty_reference (cfg : Cfg) (env : Env) (opts : CreateOptions)
    (tmp p : String) (ch ch2 : Chart)
    (hChart : opts.chart = "")
    (hTmp : env.tempDir = .ok tmp)
    (hCreate : env.helmCreate (stringsToLower opts.gvk.kind) tmp = .ok p)
    (hLoad : env.load p = .ok ch)
    (hName : ch.name = (stringsToLower opts.gvk.kind))
    (hBuild : env.managerBuild (filepathJoin tmp ch.name) = none)
    (hReload : env.reload (filepathJoin tmp ch.name) = .ok ch2)
    (hName2 : ch2.name = ch.name) :
    (∀ r2 v2, CreateChart cfg env { opts with repo := r2, version := v2 } =
        CreateChart cfg env opts) ∧
    (∀ e ∈ (CreateChart cfg env opts).2, isFetchEvent e = false) ∧
    ∃ r, (CreateChart cfg env opts).1 = ⟨some r, some ch2, none⟩ ∧
      ch2.name = (stringsToLower opts.gvk.kind) := by
  have hpipe : createChartPipeline cfg env tmp opts =
      (⟨some (opts.NewResource cfg), some ch2, none⟩,
        [Event.helmCreate (stringsToLower opts.gvk.kind) tmp, Event.load p,
         Event.newResource opts.golangOptions,
         Event.managerBuild (filepathJoin tmp ch.name),
         Event.load (filepathJoin tmp ch.name)]) := by
    simp [createChartPipeline, hChart, scaffoldChart, hCreate, hLoad,
      fetchChartDependencies, hBuild, hReload]
  refine ⟨?_, ?_, ?_⟩
  · intro r2 v2
    obtain ⟨gvk, c0, rp, vv, cv, d⟩ := opts
    dsimp only at hChart
    subst hChart
    rfl
  · intro e he
    cases hr : env.removeAll tmp with
    | none =>
      simp [CreateChart, hTmp, hr, hpipe] at he
      rcases he with rfl | rfl | rfl | rfl | rfl | rfl <;> rfl
    | some er =>
      simp [CreateChart, hTmp, hr, hpipe] at he
      rcases he with rfl | rfl | rfl | rfl | rfl | rfl | rfl <;> rfl
  · rw [CreateChart_fst cfg env opts tmp hTmp, hpipe]
    exact ⟨opts.NewResource cfg, rfl, hName2.trans hName⟩

/-- C3 witness: with the concrete environment and options with empty
reference and kind `App`, supplying a repository URL and version changes
nothing, the scaffold event is not a fetch event, and the returned chart
is named `app`. -/
theorem c3_empty_reference_witness :
    (CreateChart cfgA envA
        { optsEmptyA with repo := "https://charts.example.com", version := "9.9.9" } =
      CreateChart cfgA envA optsEmptyA) ∧
    isFetchEvent (Event.helmCreate "app" tmpA) = false ∧
    ∃ r, (CreateChart cfgA envA optsEmptyA).1 = ⟨some r, some chartApp, none⟩ ∧
      chartApp.name = stringsToLower "App" := by
  obtain ⟨h1, h2, h3⟩ := c3_empty_reference cfgA envA optsEmptyA tmpA
    "/tmp/osdk-helm-chart/app" chartApp chartApp rfl rfl (by rfl) (by rfl) (by rfl)
    rfl (by rfl) rfl
  exact ⟨h1 _ _, h2 (Event.helmCreate "app" tmpA) (by decide), h3⟩

/-- C6: acquiring an existing local directory chart with zero declared
dependencies succeeds end to end, and — under the helm library's contract
that saving then reloading a dependency-free chart preserves its name and
template set — the chart `CreateChart` returns has the same name and
template set as the chart loaded from the source directory. -/
theorem c6_local_roundtrip (cfg : Cfg) (env : Env) (opts : CreateOptions)
    (tmp : String) (ch ch2 : Chart)
    (hne : opts.chart ≠ "")
    (hTmp : env.tempDir = .ok tmp)
    (hStat : env.stat opts.chart = true)
    (hLoad : env.load opts.chart = .ok ch)
    (_hNoDeps : ch.dependencies = [])
    (hSave : env.saveDir ch tmp = none)
    (hBuild : env.managerBuild (filepathJoin tmp ch.name) = none)
    (hReload : env.reload (filepathJoin tmp ch.name) = .ok ch2)
    (hRName : ch2.name = ch.name)
    (hRTpl : ch2.templates = ch.templates) :
    ∃ r c, (CreateChart cfg env opts).1 = ⟨some r, some c, none⟩ ∧
      c.name = ch.name ∧ c.templates = ch.templates := by
  rw [CreateChart_fst cfg env opts tmp hTmp]
  refine ⟨({ opts with gvk := specDefaultedGVK opts.gvk ch.name } : CreateOptions).NewResource cfg,
    ch2, ?_, hRName, hRTpl⟩
  simp [createChartPipeline, hne, fetchChart, fetchAcquire, hStat, createChartFromDisk,
    hLoad, hSave, fetchChartDependencies, hBuild, hReload, specDefaultedGVK]

/-- C6 witness: the concrete dependency-free directory chart `./my-app`
round-trips with its name and template set intact. -/
theorem c6_local_roundtrip_witness :
    ∃ r c, (CreateChart cfgA envA optsLocalA).1 = ⟨some r, some c, none⟩ ∧
      c.name = "my-app" ∧ c.templates = chartA.templates := by
  exact c6_local_roundtrip cfgA envA optsLocalA tmpA chartA chartA
    (by decide) rfl rfl rfl rfl rfl rfl rfl rfl rfl

/-- C8: the build subcommand's argument-count validation rejects every
single-argument invocation: for any argument list with exactly one element
the guard `len(args) != 1 || len(args) != 2` holds, and `buildFunc` exits
with a bad-arguments error having executed no build script. -/
theorem c8_build_rejects_single_arg (env : cmd.BuildEnv) (args : List String)
    (h : args.length = 1) :
    cmd.buildGuard args = true ∧
      cmd.buildFunc env args =
        (.exitBadArgs "build command needs at least 1 argument.", []) := by
  have hg : cmd.buildGuard args = true := by
    simp [cmd.buildGuard, h]
  exact ⟨hg, by simp [cmd.buildFunc, hg]⟩

/-- C8 witness: the single-argument invocation `["quay.io/example/op:v1"]`
is rejected with a bad-arguments exit and no executed script. -/
theorem c8_build_rejects_single_arg_witness :
    cmd.buildGuard ["quay.io/example/op:v1"] = true ∧
      cmd.buildFunc
        ⟨.ok "", fun _ => .ok "", fun _ => .ok "", fun _ => none, fun _ _ => none⟩
        ["quay.io/example/op:v1"] =
        (.exitBadArgs "build command needs at least 1 argument.", []) :=
  c8_build_rejects_single_arg _ _ rfl

/-- C10: `NewWatchOp` always returns a `WatchOp` whose `NumWorkers` equals
1; `setDefaults` replaces `NumWorkers` only when it is exactly 0, so any
nonzero value set via `WithWatchOptions` — including a negative worker
count — is preserved unchanged. -/
theorem c10_watchop_defaults :
    sdk.NewWatchOp.NumWorkers = 1 ∧
      (∀ (op : sdk.WatchOp) (n : Int), n ≠ 0 →
        (sdk.WatchOp.setDefaults (sdk.WithWatchOptions n op)).NumWorkers = n) ∧
      (∀ op : sdk.WatchOp, op.NumWorkers ≠ 0 → op.setDefaults = op) := by
  refine ⟨rfl, ?_, ?_⟩
  · intro op n hn
    simp [sdk.WatchOp.setDefaults, sdk.WithWatchOptions, hn]
  · intro op hop
    simp [sdk.WatchOp.setDefaults, hop]

/-- C10 witness: the default is 1, and the negative worker count -5 set via
`WithWatchOptions` survives `setDefaults` unchanged. -/
theorem c10_watchop_defaults_witness :
    sdk.NewWatchOp.NumWorkers = 1 ∧
      (sdk.WatchOp.setDefaults (sdk.WithWatchOptions (-5) ⟨0⟩)).NumWorkers = -5 :=
  ⟨c10_watchop_defaults.1, c10_watchop_defaults.2.1 ⟨0⟩ (-5) (by decide)⟩

end OperatorSDK
